import Mathlib

/-!
Shallow embedding of the subscription and billing subsystem of the A10Backend
HR administration server (Express + Prisma + Razorpay), together with proofs
about it.

Embedding conventions:
 - JavaScript numbers are modelled as exact rationals (`ℚ`); timestamps
   (`Date.getTime()`) as `Int` epoch milliseconds.
 - Prisma rows become Lean structures; the payment table is a `List Payment`
   (`findUnique` on a unique column becomes `List.find?`, `update` by id
   becomes a map over the list).  The single tenant subscription row relevant
   to a request is carried directly in the database state.
 - The HMAC signature checks of `src/lib/razorpay.ts` are uninterpreted:
   handlers take the verification function as an explicit parameter, so a
   concrete run can instantiate it with "accepts" or "rejects".
 - `JSON`-ish details (the `metadata` blob written by change-plan) are given
   a typed shape `PendingChange` mirroring the object that is stringified.
-/

namespace A10

/-- Payment status enum of the Prisma schema (`CREATED | CAPTURED | FAILED | REFUNDED`). -/
inductive PaymentStatus
  | CREATED
  | CAPTURED
  | FAILED
  | REFUNDED
deriving DecidableEq, Repr

/-- Subscription status enum (`TRIAL | ACTIVE | PAST_DUE | SUSPENDED | EXPIRED | CANCELLED`). -/
inductive SubStatus
  | TRIAL
  | ACTIVE
  | PAST_DUE
  | SUSPENDED
  | EXPIRED
  | CANCELLED
deriving DecidableEq, Repr

/-- Subscription plan row (`subscriptionPlan` table): price, seat ceiling
(`-1` = unlimited) and boolean feature flags. -/
structure Plan where
  id : Nat
  name : String
  monthlyPrice : ℚ
  yearlyPrice : Option ℚ
  currency : String
  maxEmployees : Int
  isActive : Bool
  isCustom : Bool
  trialDays : Nat
  hasPayroll : Bool
  hasAdvancedAnalytics : Bool
  hasCustomIntegrations : Bool
  hasPrioritySupport : Bool
  hasDedicatedManager : Bool
  hasCustomWorkflows : Bool
  hasSLA : Bool
  hasOnPremise : Bool
deriving DecidableEq, Repr

/-- The object that `POST /change-plan` stringifies into `subscription.metadata`
for a deferred downgrade. -/
structure PendingChange where
  pendingPlanChange : Nat
  pendingPlanName : String
  changeEffectiveDate : Option Int
deriving DecidableEq, Repr

/-- Subscription row.  Timestamps are epoch milliseconds; `metadata` is the
typed shape of the JSON blob written by change-plan (none if unset). -/
structure Subscription where
  id : Nat
  organizationId : Nat
  planId : Nat
  status : SubStatus
  trialStartDate : Option Int
  trialEndDate : Option Int
  currentPeriodStart : Option Int
  currentPeriodEnd : Option Int
  billingCycle : String
  autoRenew : Bool
  cancelsAtPeriodEnd : Bool
  cancelledAt : Option Int
  cancelReason : Option String
  metadata : Option PendingChange
deriving DecidableEq, Repr

/-- Payment row (`payment` table).  `amount` is stored in rupees
(paise divided by 100), as in `create-order`. -/
structure Payment where
  id : Nat
  subscriptionId : Nat
  amount : ℚ
  currency : String
  razorpayOrderId : String
  razorpayPaymentId : Option String
  razorpaySignature : Option String
  status : PaymentStatus
  receipt : String
  method : Option String
  errorCode : Option String
  errorDescription : Option String
  paidAt : Option Int
  refundedAt : Option Int
deriving DecidableEq, Repr

/-- Invoice row created by `verify-payment`. -/
structure Invoice where
  subscriptionId : Nat
  invoiceNumber : String
  subtotal : ℚ
  tax : ℚ
  total : ℚ
  currency : String
  periodStart : Int
  periodEnd : Int
  status : String
  paidAt : Int
deriving DecidableEq, Repr

/-- Persistent state touched by the billing endpoints: the payment table,
the tenant's subscription row, and the invoice table. -/
structure DB where
  payments : List Payment
  subscription : Subscription
  invoices : List Invoice
deriving DecidableEq, Repr

/-- JavaScript truthiness of an optional string: `undefined` and the empty
string are falsy. -/
def jsTruthy : Option String → Bool
  | none => false
  | some s => s ≠ ""

/-- JavaScript truthiness of an optional number: `undefined` and `0` are falsy. -/
def jsTruthyNum : Option ℚ → Bool
  | none => false
  | some q => q ≠ 0

/-- One day in milliseconds. -/
def dayMs : Int := 24 * 60 * 60 * 1000

/-- The 3-day grace period of `checkSubscription` (`3 * 24 * 60 * 60 * 1000`). -/
def gracePeriodMs : Int := 3 * 24 * 60 * 60 * 1000

-- ==================== Entitlement guard (src/middleware/subscription.ts) ====================

/-- Result of the `checkSubscription` middleware as seen by the caller:
either `next()` was called with an attached subscription context, or the
request was rejected with a status code and machine-readable code string. -/
inductive GuardOutcome
  | unauthorized
  | allow (attached : Option Subscription)
  | deny (code : String)
deriving DecidableEq, Repr

/-- Outcome of a guard read paired with the subscription row as stored after
the read (the middleware read-repairs expired states before responding). -/
structure GuardResult where
  outcome : GuardOutcome
  stored : Option Subscription
deriving DecidableEq, Repr

/-- Embedding of `checkSubscription` (src/src/middleware/subscription.ts lines
9-117).  `userId` is `req.user?.id`; `userOrgId` the looked-up
`user.organizationId`; `sub?` the subscription row found for that
organization; `now` the request time in epoch milliseconds. -/
def checkSubscription (userId : Option Nat) (userOrgId : Option Nat)
    (sub? : Option Subscription) (now : Int) : GuardResult :=
  match userId with
  | none => ⟨.unauthorized, sub?⟩
  | some _ =>
    match userOrgId with
    | none => ⟨.allow none, sub?⟩
    | some _ =>
      match sub? with
      | none => ⟨.deny "NO_SUBSCRIPTION", none⟩
      | some sub =>
        if sub.status = .TRIAL then
          match sub.trialEndDate with
          | some te =>
            if now > te then
              ⟨.deny "TRIAL_EXPIRED", some { sub with status := .EXPIRED }⟩
            else ⟨.allow (some sub), some sub⟩
          | none => ⟨.allow (some sub), some sub⟩
        else if sub.status = .ACTIVE then
          match sub.currentPeriodEnd with
          | some pe =>
            if now > pe then
              ⟨.deny "SUBSCRIPTION_PAST_DUE", some { sub with status := .PAST_DUE }⟩
            else ⟨.allow (some sub), some sub⟩
          | none => ⟨.allow (some sub), some sub⟩
        else if sub.status = .EXPIRED ∨ sub.status = .CANCELLED ∨ sub.status = .SUSPENDED then
          ⟨.deny "SUBSCRIPTION_INACTIVE", some sub⟩
        else if sub.status = .PAST_DUE then
          match sub.currentPeriodEnd with
          | some pe =>
            if now > pe + gracePeriodMs then
              ⟨.deny "SUBSCRIPTION_SUSPENDED", some { sub with status := .SUSPENDED }⟩
            else ⟨.allow (some sub), some sub⟩
          | none => ⟨.allow (some sub), some sub⟩
        else ⟨.allow (some sub), some sub⟩

/-- Embedding of `enforceEmployeeLimit` (lines 123-169).  `ctx` is the
`(req as any).subscription` context attached by `checkSubscription` together
with its included plan; `orgId` the attached organization id;
`employeeCount` the ACTIVE-user-with-employee count.  Returns whether
`next()` was called and the denial code otherwise. -/
def enforceEmployeeLimit (ctx : Option (Subscription × Plan)) (orgId : Option Nat)
    (employeeCount : Nat) : Bool × Option String :=
  match ctx, orgId with
  | some (_, plan), some _ =>
    if plan.maxEmployees = -1 then (true, none)
    else if (employeeCount : Int) ≥ plan.maxEmployees then
      (false, some "EMPLOYEE_LIMIT_REACHED")
    else (true, none)
  | _, _ => (true, none)

/-- The `featureMap` object built inside `requireFeature` (lines 183-192):
a string-keyed lookup of the plan's boolean feature flags; an unknown key
yields `undefined` (`none`). -/
def featureMap (plan : Plan) (feature : String) : Option Bool :=
  if feature = "payroll" then some plan.hasPayroll
  else if feature = "advancedAnalytics" then some plan.hasAdvancedAnalytics
  else if feature = "customIntegrations" then some plan.hasCustomIntegrations
  else if feature = "prioritySupport" then some plan.hasPrioritySupport
  else if feature = "dedicatedManager" then some plan.hasDedicatedManager
  else if feature = "customWorkflows" then some plan.hasCustomWorkflows
  else if feature = "sla" then some plan.hasSLA
  else if feature = "onPremise" then some plan.hasOnPremise
  else none

/-- Embedding of `requireFeature(feature)` (lines 174-207): denies only when
`featureMap[feature] === false`; absent context or an unknown feature key
passes through. -/
def requireFeature (feature : String) (ctx : Option (Subscription × Plan)) :
    Bool × Option String :=
  match ctx with
  | none => (true, none)
  | some (_, plan) =>
    if featureMap plan feature = some false then
      (false, some "FEATURE_NOT_AVAILABLE")
    else (true, none)

-- ==================== Payment table primitives ====================

/-- Prisma `payment.findUnique({ where: { razorpayOrderId } })`. -/
def findPaymentByOrderId (ps : List Payment) (oid : String) : Option Payment :=
  ps.find? (fun p => p.razorpayOrderId = oid)

/-- Prisma `payment.findUnique({ where: { razorpayPaymentId } })`. -/
def findPaymentByPaymentId (ps : List Payment) (rpid : String) : Option Payment :=
  ps.find? (fun p => p.razorpayPaymentId = some rpid)

/-- Prisma `payment.update({ where: { id } })`: rewrite the row with that id. -/
def updatePaymentById (ps : List Payment) (i : Nat) (f : Payment → Payment) : List Payment :=
  ps.map (fun q => if q.id = i then f q else q)

/-- The status of the payment row with a given id, if present. -/
def paymentStatusById (ps : List Payment) (i : Nat) : Option PaymentStatus :=
  (ps.find? (fun p => p.id = i)).map Payment.status

-- ==================== Webhook ingestion (POST /api/subscription/webhook) ====================

/-- The Razorpay `payment` entity fields the webhook handler reads. -/
structure PaymentEntity where
  id : String
  order_id : String
  method : Option String
  error_code : Option String
  error_description : Option String
deriving DecidableEq, Repr

/-- The Razorpay `refund` entity fields the webhook handler reads. -/
structure RefundEntity where
  payment_id : String
deriving DecidableEq, Repr

/-- Parsed webhook event envelope: the `event` type tag together with the
entity payload the corresponding switch case destructures. -/
inductive WebhookEvent
  | paymentCaptured (entity : PaymentEntity)
  | paymentFailed (entity : PaymentEntity)
  | refundCreated (entity : RefundEntity)
  | other
deriving DecidableEq, Repr

/-- The `payment.captured` case (part_005 lines 1027-1045): look the Payment
up by external order id; if found and not already CAPTURED, mark it CAPTURED
and record the external payment id, method and paid-at time; otherwise no-op.
The subscription and invoice tables are not touched. -/
def webhookCaptured (e : PaymentEntity) (now : Int) (db : DB) : DB :=
  match findPaymentByOrderId db.payments e.order_id with
  | none => db
  | some p =>
    if p.status ≠ .CAPTURED then
      { db with payments := updatePaymentById db.payments p.id (fun q =>
          { q with status := .CAPTURED, razorpayPaymentId := some e.id,
                   method := e.method, paidAt := some now }) }
    else db

/-- The `payment.failed` case (lines 1047-1065): if the Payment exists — with
no check of its current status — mark it FAILED and record the error detail. -/
def webhookFailed (e : PaymentEntity) (db : DB) : DB :=
  match findPaymentByOrderId db.payments e.order_id with
  | none => db
  | some p =>
    { db with payments := updatePaymentById db.payments p.id (fun q =>
        { q with status := .FAILED, razorpayPaymentId := some e.id,
                 errorCode := e.error_code, errorDescription := e.error_description }) }

/-- The `refund.created` case (lines 1067-1083): look the Payment up by
external payment id; if found — with no check of its current status — mark
it REFUNDED. -/
def webhookRefund (e : RefundEntity) (now : Int) (db : DB) : DB :=
  match findPaymentByPaymentId db.payments e.payment_id with
  | none => db
  | some p =>
    { db with payments := updatePaymentById db.payments p.id (fun q =>
        { q with status := .REFUNDED, refundedAt := some now }) }

/-- The event switch of the webhook handler (lines 1026-1084); unrecognized
event types fall through unhandled. -/
def processWebhookEvent (ev : WebhookEvent) (now : Int) (db : DB) : DB :=
  match ev with
  | .paymentCaptured e => webhookCaptured e now db
  | .paymentFailed e => webhookFailed e db
  | .refundCreated e => webhookRefund e now db
  | .other => db

/-- The webhook endpoint (lines 1010-1093).  `verify` abstracts
`verifyWebhookSignature` (HMAC-SHA256 under the webhook secret); `sig` is the
`x-razorpay-signature` header (`none` when absent); `body` is
`JSON.stringify(req.body)` — the RE-SERIALIZATION of the parsed body that the
source hands to the verifier, not the raw request bytes.  Mirrors the source
guard `if (signature && !verifyWebhookSignature(body, signature))`: a missing
or empty header skips verification entirely and the event is processed.
Returns the new state and the HTTP status. -/
def webhookEndpoint (verify : String → String → Bool) (sig : Option String)
    (body : String) (ev : WebhookEvent) (now : Int) (db : DB) : DB × Nat :=
  if jsTruthy sig ∧ ¬ verify body (sig.getD "") then (db, 400)
  else (processWebhookEvent ev now db, 200)

-- ==================== Invoice arithmetic ====================

/-- JavaScript `Math.round`: half rounds toward positive infinity. -/
def jsRound (x : ℚ) : ℤ := Int.floor (x + 1/2)

/-- Invoice tax as computed at part_005 line 597:
`Math.round(payment.amount * 0.18 * 100) / 100`. -/
def invoiceTax (amount : ℚ) : ℚ := (jsRound (amount * (18/100) * 100) : ℚ) / 100

/-- Invoice total as computed at line 598:
`Math.round(payment.amount * 1.18 * 100) / 100`. -/
def invoiceTotal (amount : ℚ) : ℚ := (jsRound (amount * (118/100) * 100) : ℚ) / 100

/-- Order amount in paise computed by `create-order` (lines 437-443):
yearly price when the cycle is YEARLY and a (truthy) yearly price exists,
otherwise monthly price, times 100 and rounded. -/
def orderAmountPaise (plan : Plan) (billingCycle : String) : ℤ :=
  if billingCycle = "YEARLY" ∧ jsTruthyNum plan.yearlyPrice then
    jsRound ((plan.yearlyPrice.getD 0) * 100)
  else jsRound (plan.monthlyPrice * 100)

/-- The amount stored on the Payment row by `create-order` (line 475):
`amount / 100`, i.e. rupees. -/
def storedPaymentAmount (plan : Plan) (billingCycle : String) : ℚ :=
  (orderAmountPaise plan billingCycle : ℚ) / 100

-- ==================== verify-payment (POST /api/subscription/verify-payment) ====================

/-- First write of `verify-payment` (lines 565-574): `payment.update` marking
the row CAPTURED with external payment id, signature, method, paid-at. -/
def vpWrite1 (p : Payment) (paymentId sig : String) (method : Option String)
    (now : Int) (db : DB) : DB :=
  { db with payments := updatePaymentById db.payments p.id (fun q =>
      { q with razorpayPaymentId := some paymentId, razorpaySignature := some sig,
               status := .CAPTURED, method := method, paidAt := some now }) }

/-- Second write (lines 577-587): `subscription.update` where id =
`payment.subscriptionId`, setting ACTIVE, the target plan, the new period
bounds, the billing cycle, and ending the trial. -/
def vpWrite2 (p : Payment) (targetPlanId : Nat) (billingCycle : String)
    (now periodEnd : Int) (db : DB) : DB :=
  { db with subscription :=
      if db.subscription.id = p.subscriptionId then
        { db.subscription with status := .ACTIVE, planId := targetPlanId,
                               currentPeriodStart := some now,
                               currentPeriodEnd := some periodEnd,
                               billingCycle := billingCycle,
                               trialEndDate := some now }
      else db.subscription }

/-- Third write (lines 592-606): `invoice.create` with the computed tax and
total.  `invoiceNumber` stands for the randomly generated
`INV-{year}{month}-{hex}` string. -/
def vpWrite3 (p : Payment) (invoiceNumber : String) (now periodStart periodEnd : Int)
    (db : DB) : DB :=
  { db with invoices := db.invoices ++
      [{ subscriptionId := p.subscriptionId, invoiceNumber := invoiceNumber,
         subtotal := p.amount, tax := invoiceTax p.amount,
         total := invoiceTotal p.amount, currency := p.currency,
         periodStart := periodStart, periodEnd := periodEnd,
         status := "PAID", paidAt := now }] }

/-- Embedding of `POST /verify-payment` (lines 504-650).  `rzpVerify`
abstracts `verifyRazorpaySignature(orderId, paymentId, signature)`; the three
request fields use JS truthiness for the missing-details check; `planId` and
`billingCycle` are the optional body fields (cycle already defaulted to
MONTHLY); `method` the optional enrichment from `fetchPaymentDetails`;
`invoiceNumber` the generated invoice number.  Returns the final state and
the HTTP status (400 missing details / 400 bad signature / 404 no payment
row / 200 success).  The three writes happen sequentially — the source wraps
them in no transaction. -/
def verifyPayment (rzpVerify : String → String → String → Bool)
    (orderId? paymentId? sig? : Option String) (planId : Option Nat)
    (billingCycle : String) (method : Option String) (invoiceNumber : String)
    (now : Int) (db : DB) : DB × Nat :=
  if ¬ (jsTruthy orderId? ∧ jsTruthy paymentId? ∧ jsTruthy sig?) then (db, 400)
  else if ¬ rzpVerify (orderId?.getD "") (paymentId?.getD "") (sig?.getD "") then (db, 400)
  else
    match findPaymentByOrderId db.payments (orderId?.getD "") with
    | none => (db, 404)
    | some p =>
      let periodEnd := if billingCycle = "YEARLY" then now + 365 * dayMs else now + 30 * dayMs
      let targetPlanId := planId.getD db.subscription.planId
      ((vpWrite3 p invoiceNumber now now periodEnd
          (vpWrite2 p targetPlanId billingCycle now periodEnd
            (vpWrite1 p (paymentId?.getD "") (sig?.getD "") method now db))), 200)

/-- The state persisted if the `verify-payment` handler stops after the first
`k` of its three sequential writes (the source has no transaction, so a crash
between writes leaves the earlier ones committed).  `k = 3` is the complete
run; the guard branches never reach a write. -/
def verifyPaymentUpTo (k : Nat) (rzpVerify : String → String → String → Bool)
    (orderId? paymentId? sig? : Option String) (planId : Option Nat)
    (billingCycle : String) (method : Option String) (invoiceNumber : String)
    (now : Int) (db : DB) : DB :=
  if ¬ (jsTruthy orderId? ∧ jsTruthy paymentId? ∧ jsTruthy sig?) then db
  else if ¬ rzpVerify (orderId?.getD "") (paymentId?.getD "") (sig?.getD "") then db
  else
    match findPaymentByOrderId db.payments (orderId?.getD "") with
    | none => db
    | some p =>
      let periodEnd := if billingCycle = "YEARLY" then now + 365 * dayMs else now + 30 * dayMs
      let targetPlanId := planId.getD db.subscription.planId
      let s1 := vpWrite1 p (paymentId?.getD "") (sig?.getD "") method now db
      let s2 := vpWrite2 p targetPlanId billingCycle now periodEnd s1
      let s3 := vpWrite3 p invoiceNumber now now periodEnd s2
      match k with
      | 0 => db
      | 1 => s1
      | 2 => s2
      | _ => s3

-- ==================== change-plan (POST /api/subscription/change-plan) ====================

/-- Responses of `POST /change-plan` relevant to its behavior: the 404 for a
missing/inactive plan, the 400 seat-limit rejection (carrying the counts the
response reports), the immediate trial plan switch, the upgrade
requires-payment response, and the deferred downgrade. -/
inductive ChangePlanResult
  | planNotFound
  | cannotDowngrade (currentCount : Nat) (newPlanLimit : Int)
  | trialChanged (newPlanId : Nat)
  | requiresPayment
  | scheduledDowngrade (newPlanId : Nat) (effectiveDate : Option Int)
deriving DecidableEq, Repr

/-- Embedding of `POST /change-plan` (lines 655-765).  `newPlan` is the
looked-up target plan, `sub` the tenant's subscription with its current plan
`curPlan`, `employeeCount` the current ACTIVE seat count.  Returns the
response and the subscription row as stored afterwards. -/
def changePlan (newPlan : Plan) (sub : Subscription) (curPlan : Plan)
    (employeeCount : Nat) : ChangePlanResult × Subscription :=
  if ¬ newPlan.isActive then (.planNotFound, sub)
  else if newPlan.maxEmployees ≠ -1 ∧ (employeeCount : Int) > newPlan.maxEmployees then
    (.cannotDowngrade employeeCount newPlan.maxEmployees, sub)
  else if sub.status = .TRIAL then
    (.trialChanged newPlan.id, { sub with planId := newPlan.id })
  else if newPlan.monthlyPrice > curPlan.monthlyPrice then
    (.requiresPayment, sub)
  else
    (.scheduledDowngrade newPlan.id sub.currentPeriodEnd,
     { sub with metadata := some { pendingPlanChange := newPlan.id,
                                   pendingPlanName := newPlan.name,
                                   changeEffectiveDate := sub.currentPeriodEnd } })

-- ==================== Generic lemmas about the table primitives ====================

/-- Mapping a row transformer that does not change a predicate's verdict
commutes with `find?`. -/
theorem find?_map_pred_stable {α : Type} (l : List α) (g : α → α) (q : α → Bool)
    (h : ∀ a, q (g a) = q a) : (l.map g).find? q = (l.find? q).map g := by
  rw [List.find?_map]
  have hq : q ∘ g = q := funext h
  rw [hq]

/-- Row updates that keep `razorpayOrderId` intact commute with the
order-id lookup. -/
theorem findPaymentByOrderId_update (ps : List Payment) (i : Nat) (f : Payment → Payment)
    (hord : ∀ q, (f q).razorpayOrderId = q.razorpayOrderId) (oid : String) :
    findPaymentByOrderId (updatePaymentById ps i f) oid
      = (findPaymentByOrderId ps oid).map (fun q => if q.id = i then f q else q) := by
  unfold findPaymentByOrderId updatePaymentById
  apply find?_map_pred_stable
  intro a
  by_cases h : a.id = i <;> simp [h, hord]

/-- Row updates that keep `razorpayPaymentId` intact commute with the
payment-id lookup. -/
theorem findPaymentByPaymentId_update (ps : List Payment) (i : Nat) (f : Payment → Payment)
    (hpid : ∀ q, (f q).razorpayPaymentId = q.razorpayPaymentId) (rpid : String) :
    findPaymentByPaymentId (updatePaymentById ps i f) rpid
      = (findPaymentByPaymentId ps rpid).map (fun q => if q.id = i then f q else q) := by
  unfold findPaymentByPaymentId updatePaymentById
  apply find?_map_pred_stable
  intro a
  by_cases h : a.id = i <;> simp [h, hpid]

/-- Evaluation rule for `jsRound` by the floor characterization, since
rational arithmetic does not reduce definitionally. -/
theorem jsRound_eq (x : ℚ) (n : ℤ) (hlo : (n : ℚ) ≤ x + 1/2) (hhi : x + 1/2 < n + 1) :
    jsRound x = n := by
  unfold jsRound
  rw [Int.floor_eq_iff]
  exact ⟨hlo, hhi⟩

/-- Rounding a value of the form integer-hundredths: adding the integer part
commutes with `jsRound`, the key fact behind `total = subtotal + tax`. -/
theorem invoiceTotal_eq_add_tax (k : ℤ) :
    invoiceTotal ((k : ℚ) / 100) = (k : ℚ) / 100 + invoiceTax ((k : ℚ) / 100) := by
  unfold invoiceTotal invoiceTax jsRound
  have h : ((k : ℚ) / 100) * (118/100) * 100 + 1/2
      = (k : ℚ) + (((k : ℚ) / 100) * (18/100) * 100 + 1/2) := by ring
  rw [h, Int.floor_int_add]
  push_cast
  ring

-- ==================== Sample fixtures ====================

/-- Starter-tier plan fixture (25-seat ceiling, 14-day trial), per the
catalog described in the repository. -/
def planStarter : Plan :=
  { id := 1, name := "Starter", monthlyPrice := 999, yearlyPrice := some 9990,
    currency := "INR", maxEmployees := 25, isActive := true, isCustom := false,
    trialDays := 14, hasPayroll := false, hasAdvancedAnalytics := false,
    hasCustomIntegrations := false, hasPrioritySupport := false,
    hasDedicatedManager := false, hasCustomWorkflows := false,
    hasSLA := false, hasOnPremise := false }

/-- Professional-tier plan fixture (price 1499 monthly, 200-seat ceiling). -/
def planPro : Plan :=
  { id := 2, name := "Professional", monthlyPrice := 1499, yearlyPrice := some 14990,
    currency := "INR", maxEmployees := 200, isActive := true, isCustom := false,
    trialDays := 14, hasPayroll := true, hasAdvancedAnalytics := true,
    hasCustomIntegrations := false, hasPrioritySupport := true,
    hasDedicatedManager := false, hasCustomWorkflows := false,
    hasSLA := false, hasOnPremise := false }

/-- An ACTIVE subscription on the Professional plan with period end at 100 ms. -/
def subActive : Subscription :=
  { id := 10, organizationId := 7, planId := 2, status := .ACTIVE,
    trialStartDate := none, trialEndDate := none, currentPeriodStart := some 0,
    currentPeriodEnd := some 100, billingCycle := "MONTHLY", autoRenew := true,
    cancelsAtPeriodEnd := false, cancelledAt := none, cancelReason := none,
    metadata := none }

/-- A TRIAL subscription with trial end at 1000 ms. -/
def subTrial : Subscription :=
  { subActive with status := .TRIAL, trialEndDate := some 1000,
                   currentPeriodStart := none, currentPeriodEnd := none }

/-- A PAST_DUE subscription whose period ended at 100 ms. -/
def subPastDue : Subscription := { subActive with status := .PAST_DUE }

/-- A CREATED payment for order `ord_1` of amount 1499 on subscription 10. -/
def payCreated : Payment :=
  { id := 1, subscriptionId := 10, amount := 1499, currency := "INR",
    razorpayOrderId := "ord_1", razorpayPaymentId := none, razorpaySignature := none,
    status := .CREATED, receipt := "rcpt_1", method := none, errorCode := none,
    errorDescription := none, paidAt := none, refundedAt := none }

/-- The same payment after a successful capture. -/
def payCapturedRow : Payment :=
  { payCreated with status := .CAPTURED, razorpayPaymentId := some "pay_1" }

/-- Initial state: one CREATED payment, a trial subscription, no invoices. -/
def db0 : DB := { payments := [payCreated], subscription := subTrial, invoices := [] }

/-- State with the payment already captured and the subscription active. -/
def dbCaptured : DB := { payments := [payCapturedRow], subscription := subActive, invoices := [] }

/-- A gateway signature verifier that accepts everything (the valid-signature
scenario). -/
def acceptAll3 : String → String → String → Bool := fun _ _ _ => true

/-- A webhook-body verifier that rejects everything. -/
def rejectAll2 : String → String → Bool := fun _ _ => false

/-- Captured-payment entity for order `ord_1`. -/
def entCap : PaymentEntity :=
  { id := "pay_1", order_id := "ord_1", method := some "card",
    error_code := none, error_description := none }

/-- Failed-payment entity for order `ord_1`. -/
def entFail : PaymentEntity :=
  { id := "pay_1", order_id := "ord_1", method := none,
    error_code := some "BAD_REQUEST_ERROR", error_description := some "declined" }

/-- State after one successful verify-payment call against `db0`. -/
def vp1 : DB × Nat :=
  verifyPayment acceptAll3 (some "ord_1") (some "pay_1") (some "sig") none
    "MONTHLY" none "INV-202501-AAAAAAAA" 1000 db0

/-- State after a second verify-payment call for the same order id. -/
def vp2 : DB × Nat :=
  verifyPayment acceptAll3 (some "ord_1") (some "pay_1") (some "sig") none
    "MONTHLY" none "INV-202501-BBBBBBBB" 2000 vp1.1

-- ==================== C10 ====================

/-- C10: an authenticated user with no organizationId is subject to no
entitlement check at all: `checkSubscription` attaches a null subscription
and calls next(), and `enforceEmployeeLimit` and `requireFeature` then pass
the request through for every seat count and every feature. -/
theorem no_org_user_bypasses_guards :
    ∀ (uid : Nat) (sub? : Option Subscription) (now : Int) (c : Nat) (f : String),
      checkSubscription (some uid) none sub? now = ⟨.allow none, sub?⟩
      ∧ enforceEmployeeLimit none none c = (true, none)
      ∧ requireFeature f none = (true, none) := by
  intro uid sub? now c f
  exact ⟨rfl, rfl, rfl⟩

-- ==================== C3 ====================

/-- C3 (code evaluated at the failing input): a webhook request whose
`x-razorpay-signature` header is absent is NOT rejected with 400 — the
source guard `if (signature && !verifyWebhookSignature(...))` skips
verification when the header is missing, so even with a verifier that
rejects every body the `payment.captured` event is processed: the endpoint
answers 200 and the Payment row is mutated to CAPTURED. -/
theorem webhook_missing_signature_processed :
    (webhookEndpoint rejectAll2 none "rawbody" (.paymentCaptured entCap) 50 db0).2 = 200
    ∧ paymentStatusById
        (webhookEndpoint rejectAll2 none "rawbody" (.paymentCaptured entCap) 50 db0).1.payments 1
        = some .CAPTURED
    ∧ (webhookEndpoint rejectAll2 none "rawbody" (.paymentCaptured entCap) 50 db0).1 ≠ db0 := by
  refine ⟨rfl, by decide, by decide⟩

-- ==================== C7 ====================

/-- When the seat-limit condition does not hold (unlimited plan or count
within the ceiling), `change-plan` never answers with the seat rejection:
every other branch produces a different response constructor. -/
theorem changePlan_no_seat_rejection (newPlan : Plan) (sub : Subscription) (curPlan : Plan)
    (c : Nat) (hact : newPlan.isActive = true)
    (hcond : ¬ (newPlan.maxEmployees ≠ -1 ∧ (c : Int) > newPlan.maxEmployees)) :
    ∀ n m, (changePlan newPlan sub curPlan c).1 ≠ ChangePlanResult.cannotDowngrade n m := by
  intro n m
  unfold changePlan
  simp only [hact, not_true_eq_false, if_false, hcond, ite_false]
  split_ifs <;> simp

/-- C7: for an active target plan with ceiling `N ≠ -1`, `change-plan` fails
with the seat-limit rejection (leaving the subscription row unchanged)
exactly when the current active seat count is strictly greater than `N`,
and never fails on that ground when the count is at most `N`; a target plan
with ceiling `-1` is never rejected for seat count. -/
theorem changePlan_seat_limit (newPlan : Plan) (sub : Subscription) (curPlan : Plan)
    (c : Nat) (hact : newPlan.isActive = true) :
    (newPlan.maxEmployees ≠ -1 →
       (((changePlan newPlan sub curPlan c).1
           = ChangePlanResult.cannotDowngrade c newPlan.maxEmployees)
         ↔ (c : Int) > newPlan.maxEmployees)
       ∧ (¬ (c : Int) > newPlan.maxEmployees →
           ∀ n m, (changePlan newPlan sub curPlan c).1 ≠ ChangePlanResult.cannotDowngrade n m)
       ∧ ((c : Int) > newPlan.maxEmployees → (changePlan newPlan sub curPlan c).2 = sub))
    ∧ (newPlan.maxEmployees = -1 →
       ∀ n m, (changePlan newPlan sub curPlan c).1 ≠ ChangePlanResult.cannotDowngrade n m) := by
  constructor
  · intro hne
    refine ⟨⟨?_, ?_⟩, ?_, ?_⟩
    · intro hres
      by_contra hgt
      exact changePlan_no_seat_rejection newPlan sub curPlan c hact
        (fun hc => hgt hc.2) c newPlan.maxEmployees hres
    · intro hgt
      unfold changePlan
      simp [hact, hne, hgt]
    · intro hgt
      exact changePlan_no_seat_rejection newPlan sub curPlan c hact (fun hc => hgt hc.2)
    · intro hgt
      unfold changePlan
      simp [hact, hne, hgt]
  · intro hunl
    exact changePlan_no_seat_rejection newPlan sub curPlan c hact (fun hc => hc.1 hunl)

/-- Witness: downgrading to the 25-seat Starter plan with 30 active seats is
rejected with the seat-limit response and the subscription is unchanged. -/
theorem changePlan_seat_limit_witness :
    ((changePlan planStarter subActive planPro 30).1
       = ChangePlanResult.cannotDowngrade 30 planStarter.maxEmployees)
    ∧ (changePlan planStarter subActive planPro 30).2 = subActive :=
  ⟨((changePlan_seat_limit planStarter subActive planPro 30 rfl).1 (by decide)).1.mpr
      (by decide),
   ((changePlan_seat_limit planStarter subActive planPro 30 rfl).1 (by decide)).2.2
      (by decide)⟩

-- ==================== C8 ====================

/-- C8: a guard read of a PAST_DUE subscription with period end `pe` repairs
the stored status to SUSPENDED exactly when the read time is strictly past
`pe` plus the 3-day grace period; at exactly 3 days past the stored status
is still PAST_DUE, and one second later it is SUSPENDED. -/
theorem pastDue_grace_suspension (uid org : Nat) (sub : Subscription) (pe now : Int)
    (hs : sub.status = .PAST_DUE) (hpe : sub.currentPeriodEnd = some pe) :
    (((checkSubscription (some uid) (some org) (some sub) now).stored.map Subscription.status)
        = some .SUSPENDED ↔ now > pe + gracePeriodMs)
    ∧ ((checkSubscription (some uid) (some org) (some sub) (pe + gracePeriodMs)).stored.map
        Subscription.status) = some .PAST_DUE
    ∧ ((checkSubscription (some uid) (some org) (some sub)
          (pe + gracePeriodMs + 1000)).stored.map Subscription.status)
        = some .SUSPENDED := by
  have key : ∀ t : Int, checkSubscription (some uid) (some org) (some sub) t
      = if t > pe + gracePeriodMs
        then ⟨.deny "SUBSCRIPTION_SUSPENDED", some { sub with status := .SUSPENDED }⟩
        else ⟨.allow (some sub), some sub⟩ := by
    intro t
    unfold checkSubscription
    simp [hs, hpe]
  refine ⟨?_, ?_, ?_⟩
  · rw [key]
    by_cases h : now > pe + gracePeriodMs
    · simp [h]
    · simp [h, hs]
  · rw [key]
    simp [hs]
  · rw [key]
    simp [show pe + gracePeriodMs + 1000 > pe + gracePeriodMs by omega]

/-- Witness: the PAST_DUE fixture with period end 100 read at time 0 (inside
grace), at exactly 3 days past, and at 3 days plus one second past. -/
theorem pastDue_grace_suspension_witness :
    (((checkSubscription (some 1) (some 7) (some subPastDue) 0).stored.map Subscription.status)
        = some .SUSPENDED ↔ (0 : Int) > 100 + gracePeriodMs)
    ∧ ((checkSubscription (some 1) (some 7) (some subPastDue) (100 + gracePeriodMs)).stored.map
        Subscription.status) = some .PAST_DUE
    ∧ ((checkSubscription (some 1) (some 7) (some subPastDue)
          (100 + gracePeriodMs + 1000)).stored.map Subscription.status)
        = some .SUSPENDED :=
  pastDue_grace_suspension 1 7 subPastDue 100 0 rfl rfl

-- ==================== C5 ====================

/-- C5 counterexample: a PAST_DUE subscription still inside the 3-day grace
window is NOT denied — `checkSubscription` attaches it and calls next(), so
the claim that every non-TRIAL-valid, non-ACTIVE status is rejected with a
403 is false on the code. -/
theorem guard_allows_pastDue_in_grace_cex :
    (checkSubscription (some 1) (some 7) (some subPastDue) 1000).outcome
      = GuardOutcome.allow (some subPastDue)
    ∧ subPastDue.status = .PAST_DUE := by
  exact ⟨by decide, by decide⟩

/-- C5 as amended: the guard denies stored EXPIRED, CANCELLED and SUSPENDED
with the single code SUBSCRIPTION_INACTIVE; an expired TRIAL with
TRIAL_EXPIRED; an expired ACTIVE with SUBSCRIPTION_PAST_DUE; a PAST_DUE
subscription past the grace window with SUBSCRIPTION_SUSPENDED; and a
PAST_DUE subscription within the grace window is passed through. -/
theorem checkSubscription_code_characterization (uid org : Nat) (sub : Subscription)
    (now : Int) :
    (sub.status = .EXPIRED ∨ sub.status = .CANCELLED ∨ sub.status = .SUSPENDED →
       checkSubscription (some uid) (some org) (some sub) now
         = ⟨.deny "SUBSCRIPTION_INACTIVE", some sub⟩)
    ∧ (∀ te, sub.status = .TRIAL → sub.trialEndDate = some te → now > te →
       checkSubscription (some uid) (some org) (some sub) now
         = ⟨.deny "TRIAL_EXPIRED", some { sub with status := .EXPIRED }⟩)
    ∧ (∀ pe, sub.status = .ACTIVE → sub.currentPeriodEnd = some pe → now > pe →
       checkSubscription (some uid) (some org) (some sub) now
         = ⟨.deny "SUBSCRIPTION_PAST_DUE", some { sub with status := .PAST_DUE }⟩)
    ∧ (∀ pe, sub.status = .PAST_DUE → sub.currentPeriodEnd = some pe →
         now > pe + gracePeriodMs →
       checkSubscription (some uid) (some org) (some sub) now
         = ⟨.deny "SUBSCRIPTION_SUSPENDED", some { sub with status := .SUSPENDED }⟩)
    ∧ (∀ pe, sub.status = .PAST_DUE → sub.currentPeriodEnd = some pe →
         ¬ now > pe + gracePeriodMs →
       checkSubscription (some uid) (some org) (some sub) now
         = ⟨.allow (some sub), some sub⟩) := by
  refine ⟨?_, ?_, ?_, ?_, ?_⟩
  · intro hs
    unfold checkSubscription
    rcases hs with h | h | h <;> simp [h]
  · intro te hs hte hgt
    unfold checkSubscription
    simp [hs, hte, hgt]
  · intro pe hs hpe hgt
    unfold checkSubscription
    simp [hs, hpe, hgt]
  · intro pe hs hpe hgt
    unfold checkSubscription
    simp [hs, hpe, hgt]
  · intro pe hs hpe hle
    unfold checkSubscription
    simp [hs, hpe, hle]

/-- Witness: a stored-SUSPENDED subscription is denied with
SUBSCRIPTION_INACTIVE (not SUBSCRIPTION_SUSPENDED), and a PAST_DUE one past
grace is denied with SUBSCRIPTION_SUSPENDED. -/
theorem checkSubscription_code_characterization_witness :
    checkSubscription (some 1) (some 7)
        (some { subPastDue with status := .SUSPENDED }) 0
      = ⟨.deny "SUBSCRIPTION_INACTIVE", some { subPastDue with status := .SUSPENDED }⟩
    ∧ checkSubscription (some 1) (some 7) (some subPastDue) (100 + gracePeriodMs + 1000)
      = ⟨.deny "SUBSCRIPTION_SUSPENDED", some { subPastDue with status := .SUSPENDED }⟩ :=
  ⟨(checkSubscription_code_characterization 1 7
      { subPastDue with status := .SUSPENDED } 0).1 (by decide),
   (checkSubscription_code_characterization 1 7 subPastDue
      (100 + gracePeriodMs + 1000)).2.2.2.1 100 rfl rfl (by decide)⟩

-- ==================== C6 ====================

/-- The pending-plan-change record written by a deferred downgrade. -/
def pendingDown : PendingChange :=
  { pendingPlanChange := 1, pendingPlanName := "Starter", changeEffectiveDate := some 100 }

/-- An ACTIVE subscription carrying a stored pending downgrade to plan 1,
with period end 100. -/
def subActivePending : Subscription := { subActive with metadata := some pendingDown }

/-- C6 counterexample: transitions are evaluated lazily at read time, and at
a guard read AFTER the billing period has ended (the moment the claim says
the pending change applies) the stored row still has the old plan id and the
untouched pending record — only the status is repaired to PAST_DUE.  No code
path reads the pending-plan-change metadata. -/
theorem pending_downgrade_unapplied_cex :
    subActivePending.currentPeriodEnd = some 100
    ∧ (checkSubscription (some 1) (some 7) (some subActivePending) 200).stored
        = some { subActivePending with status := .PAST_DUE }
    ∧ ((checkSubscription (some 1) (some 7) (some subActivePending) 200).stored.map
        Subscription.planId) = some 2
    ∧ subActivePending.planId = 2
    ∧ ((checkSubscription (some 1) (some 7) (some subActivePending) 200).stored.map
        Subscription.metadata) = some (some pendingDown) := by
  refine ⟨by decide, by decide, by decide, by decide, by decide⟩

/-- C6 as amended: for a non-trial subscription (seat check passed), an
upgrade answers requires-payment with the row unchanged, and a downgrade
stores the pending-plan-change record while leaving the plan id unchanged;
but no operation applies the pending change — every guard read preserves
plan id and metadata, and a later verify-payment also leaves the metadata
in place. -/
theorem changePlan_upgrade_downgrade (newPlan : Plan) (sub : Subscription) (curPlan : Plan)
    (c : Nat) (hact : newPlan.isActive = true)
    (hseat : ¬ (newPlan.maxEmployees ≠ -1 ∧ (c : Int) > newPlan.maxEmployees))
    (hnt : sub.status ≠ .TRIAL) :
    (newPlan.monthlyPrice > curPlan.monthlyPrice →
       changePlan newPlan sub curPlan c = (ChangePlanResult.requiresPayment, sub))
    ∧ (¬ newPlan.monthlyPrice > curPlan.monthlyPrice →
       changePlan newPlan sub curPlan c
         = (ChangePlanResult.scheduledDowngrade newPlan.id sub.currentPeriodEnd,
            { sub with metadata := some { pendingPlanChange := newPlan.id,
                                          pendingPlanName := newPlan.name,
                                          changeEffectiveDate := sub.currentPeriodEnd } })
       ∧ (changePlan newPlan sub curPlan c).2.planId = sub.planId)
    ∧ (∀ uid org now,
        ((checkSubscription (some uid) (some org) (some sub) now).stored.map
          Subscription.planId) = some sub.planId
        ∧ ((checkSubscription (some uid) (some org) (some sub) now).stored.map
          Subscription.metadata) = some sub.metadata)
    ∧ (∀ V o pi si pid bc m iv t db,
        ((verifyPayment V o pi si pid bc m iv t db).1).subscription.metadata
          = db.subscription.metadata) := by
  refine ⟨?_, ?_, ?_, ?_⟩
  · intro hup
    unfold changePlan
    simp [hact, hseat, hnt, hup]
  · intro hdown
    constructor
    · unfold changePlan
      simp [hact, hseat, hnt, hdown]
    · unfold changePlan
      simp [hact, hseat, hnt, hdown]
  · intro uid org now
    unfold checkSubscription
    rcases hs : sub.status <;> simp [hs] <;>
      rcases hte : sub.trialEndDate <;> rcases hpe : sub.currentPeriodEnd <;>
        simp [hte, hpe] <;> split_ifs <;> simp
  · intro V o pi si pid bc m iv t db
    unfold verifyPayment
    split_ifs <;> try rfl
    all_goals
      rcases h : findPaymentByOrderId db.payments (o.getD "") with _ | p
      all_goals simp only [h, vpWrite3, vpWrite2, vpWrite1]
      all_goals split_ifs <;> rfl

/-- Witness for the amended C6: the downgrade from Professional to Starter
with 10 seats stores the pending record without changing the plan, and the
subsequent period-end read keeps plan id and metadata. -/
theorem changePlan_upgrade_downgrade_witness :
    (changePlan planStarter subActive planPro 10
      = (ChangePlanResult.scheduledDowngrade planStarter.id subActive.currentPeriodEnd,
         { subActive with metadata := some { pendingPlanChange := planStarter.id,
                                             pendingPlanName := planStarter.name,
                                             changeEffectiveDate := subActive.currentPeriodEnd } })
      ∧ (changePlan planStarter subActive planPro 10).2.planId = subActive.planId)
    ∧ (((checkSubscription (some 1) (some 7) (some subActive) 200).stored.map
         Subscription.planId) = some subActive.planId
       ∧ ((checkSubscription (some 1) (some 7) (some subActive) 200).stored.map
         Subscription.metadata) = some subActive.metadata) :=
  ⟨(changePlan_upgrade_downgrade planStarter subActive planPro 10 rfl (by decide)
      (by decide)).2.1 (by decide),
   (changePlan_upgrade_downgrade planStarter subActive planPro 10 rfl (by decide)
      (by decide)).2.2.1 1 7 200⟩

-- ==================== C4 ====================

/-- C4 counterexample: a CAPTURED payment hit by a `payment.failed` webhook
event is rewritten to FAILED — the transition CAPTURED → FAILED, which the
claim says is never written, happens. -/
theorem captured_to_failed_cex :
    paymentStatusById dbCaptured.payments 1 = some .CAPTURED
    ∧ paymentStatusById (webhookFailed entFail dbCaptured).payments 1 = some .FAILED := by
  exact ⟨by decide, by decide⟩

/-- C4 as amended: the handlers enforce almost no monotonicity.
`payment.failed` writes FAILED over any existing payment (including a
CAPTURED one); `payment.captured` writes CAPTURED over any non-CAPTURED
status (including FAILED and REFUNDED) and is a no-op only on an
already-CAPTURED row; `refund.created` writes REFUNDED over any status; and
a successful verify-payment writes CAPTURED unconditionally. -/
theorem payment_status_write_rules :
    (∀ db e p, findPaymentByOrderId db.payments e.order_id = some p →
       findPaymentByOrderId (webhookFailed e db).payments e.order_id
         = some { p with
             status := .FAILED, razorpayPaymentId := some e.id,
             errorCode := e.error_code, errorDescription := e.error_description })
    ∧ (∀ db e now p, findPaymentByOrderId db.payments e.order_id = some p →
         p.status ≠ .CAPTURED →
       findPaymentByOrderId (webhookCaptured e now db).payments e.order_id
         = some { p with
             status := .CAPTURED, razorpayPaymentId := some e.id,
             method := e.method, paidAt := some now })
    ∧ (∀ db e now p, findPaymentByOrderId db.payments e.order_id = some p →
         p.status = .CAPTURED → webhookCaptured e now db = db)
    ∧ (∀ db e now p, findPaymentByPaymentId db.payments e.payment_id = some p →
       findPaymentByPaymentId (webhookRefund e now db).payments e.payment_id
         = some { p with status := .REFUNDED, refundedAt := some now })
    ∧ (∀ V o pi si pid bc m iv (t : Int) db p,
         jsTruthy o ∧ jsTruthy pi ∧ jsTruthy si →
         V (o.getD "") (pi.getD "") (si.getD "") = true →
         findPaymentByOrderId db.payments (o.getD "") = some p →
       findPaymentByOrderId ((verifyPayment V o pi si pid bc m iv t db).1).payments
           (o.getD "")
         = some { p with
             status := .CAPTURED, razorpayPaymentId := some (pi.getD ""),
             razorpaySignature := some (si.getD ""), method := m,
             paidAt := some t }) := by
  refine ⟨?_, ?_, ?_, ?_, ?_⟩
  · intro db e p hfind
    unfold webhookFailed
    simp only [hfind]
    rw [findPaymentByOrderId_update]
    · rw [hfind]
      simp
    · intro q
      rfl
  · intro db e now p hfind hne
    unfold webhookCaptured
    simp only [hfind, hne, ne_eq, not_false_eq_true, if_true, ite_true]
    rw [findPaymentByOrderId_update]
    · rw [hfind]
      simp
    · intro q
      rfl
  · intro db e now p hfind heq
    unfold webhookCaptured
    simp only [hfind]
    simp [heq]
  · intro db e now p hfind
    unfold webhookRefund
    simp only [hfind]
    rw [findPaymentByPaymentId_update]
    · rw [hfind]
      simp
    · intro q
      rfl
  · intro V o pi si pid bc m iv t db p htr hv hfind
    obtain ⟨h1, h2, h3⟩ := htr
    unfold verifyPayment
    rw [if_neg (not_not_intro ⟨h1, h2, h3⟩), if_neg (not_not_intro hv)]
    simp only [hfind, vpWrite3, vpWrite2, vpWrite1]
    rw [findPaymentByOrderId_update]
    · rw [hfind]
      simp
    · intro q
      rfl

/-- Witness: the failed-event write over the captured fixture, via the first
rule. -/
theorem payment_status_write_rules_witness :
    findPaymentByOrderId (webhookFailed entFail dbCaptured).payments entFail.order_id
      = some { payCapturedRow with
          status := .FAILED,
          razorpayPaymentId := some entFail.id,
          errorCode := entFail.error_code,
          errorDescription := entFail.error_description } :=
  payment_status_write_rules.1 dbCaptured entFail payCapturedRow (by decide)

-- ==================== C1 ====================

/-- The webhook captured-handler is a no-op whenever any payment found for
the order id is already CAPTURED (or none is found at all). -/
theorem webhookCaptured_noop (e : PaymentEntity) (t : Int) (db : DB)
    (h : ∀ p, findPaymentByOrderId db.payments e.order_id = some p → p.status = .CAPTURED) :
    webhookCaptured e t db = db := by
  unfold webhookCaptured
  rcases hf : findPaymentByOrderId db.payments e.order_id with _ | p
  · rfl
  · simp [h p hf]

/-- C1 counterexample: for the fixture order `ord_1`, two successive
successful verify-payment calls both answer 200 and leave TWO invoices, and
each call rewrites `current_period_end` relative to its own clock — one
Invoice and one period extension per call, not per order.  A webhook-only
replay, by contrast, creates zero invoices. -/
theorem double_verify_two_invoices_cex :
    vp1.2 = 200 ∧ vp2.2 = 200
    ∧ vp2.1.invoices.length = 2
    ∧ vp1.1.subscription.currentPeriodEnd = some (1000 + 30 * dayMs)
    ∧ vp2.1.subscription.currentPeriodEnd = some (2000 + 30 * dayMs)
    ∧ (processWebhookEvent (.paymentCaptured entCap) 500 db0).invoices.length = 0 := by
  refine ⟨rfl, rfl, rfl, rfl, rfl, rfl⟩

/-- C1 as amended: replaying the `payment.captured` webhook is idempotent on
the payment table and never touches the invoice table or the subscription
(the webhook path performs no period extension and creates no Invoice at
all); each SUCCESSFUL verify-payment call, by contrast, appends exactly one
new Invoice, so repeated verify-payment calls for the same order id create
one Invoice per call rather than exactly one in total. -/
theorem capture_paths_characterization :
    (∀ e t1 t2 db, webhookCaptured e t2 (webhookCaptured e t1 db) = webhookCaptured e t1 db)
    ∧ (∀ e t db, (webhookCaptured e t db).invoices = db.invoices
        ∧ (webhookCaptured e t db).subscription = db.subscription)
    ∧ (∀ V o pi si pid bc m iv (t : Int) db db',
         verifyPayment V o pi si pid bc m iv t db = (db', 200) →
         db'.invoices.length = db.invoices.length + 1) := by
  refine ⟨?_, ?_, ?_⟩
  · intro e t1 t2 db
    apply webhookCaptured_noop
    intro p' hp'
    rcases h : findPaymentByOrderId db.payments e.order_id with _ | p
    · have hid : webhookCaptured e t1 db = db := by
        unfold webhookCaptured
        rw [h]
      rw [hid, h] at hp'
      cases hp'
    · by_cases hs : p.status = .CAPTURED
      · have hid : webhookCaptured e t1 db = db := by
          unfold webhookCaptured
          simp [h, hs]
        rw [hid, h] at hp'
        cases hp'
        exact hs
      · have h2 : findPaymentByOrderId (webhookCaptured e t1 db).payments e.order_id
            = some { p with
                status := .CAPTURED, razorpayPaymentId := some e.id,
                method := e.method, paidAt := some t1 } := by
          unfold webhookCaptured
          simp only [h, hs, ne_eq, not_false_eq_true, ite_true, if_true]
          rw [findPaymentByOrderId_update]
          · rw [h]
            simp
          · intro q
            rfl
        rw [h2] at hp'
        cases hp'
        rfl
  · intro e t db
    unfold webhookCaptured
    rcases h : findPaymentByOrderId db.payments e.order_id with _ | p
    · exact ⟨rfl, rfl⟩
    · simp only
      split_ifs <;> exact ⟨rfl, rfl⟩
  · intro V o pi si pid bc m iv t db db' hsucc
    unfold verifyPayment at hsucc
    by_cases hg1 : (jsTruthy o ∧ jsTruthy pi ∧ jsTruthy si)
    · by_cases hg2 : (V (o.getD "") (pi.getD "") (si.getD "") : Prop)
      · rw [if_neg (not_not_intro hg1), if_neg (not_not_intro hg2)] at hsucc
        rcases h : findPaymentByOrderId db.payments (o.getD "") with _ | p
        · rw [h] at hsucc
          simp at hsucc
        · rw [h] at hsucc
          simp only [Prod.mk.injEq] at hsucc
          obtain ⟨hdb, -⟩ := hsucc
          subst hdb
          simp [vpWrite3, vpWrite2, vpWrite1]
      · rw [if_neg (not_not_intro hg1), if_pos hg2] at hsucc
        simp at hsucc
    · rw [if_pos hg1] at hsucc
      simp at hsucc

/-- Witness: webhook replay on the fixture is a no-op, and the first
verify-payment call appends exactly one invoice. -/
theorem capture_paths_characterization_witness :
    webhookCaptured entCap 600 (webhookCaptured entCap 500 db0)
      = webhookCaptured entCap 500 db0
    ∧ vp1.1.invoices.length = db0.invoices.length + 1 :=
  ⟨capture_paths_characterization.1 entCap 500 600 db0,
   capture_paths_characterization.2.2 acceptAll3 (some "ord_1") (some "pay_1") (some "sig")
     none "MONTHLY" none "INV-202501-AAAAAAAA" 1000 db0 vp1.1 rfl⟩

-- ==================== C2 ====================

/-- State persisted when the handler crashes right after the payment update
(one of three writes committed). -/
def vpU1 : DB :=
  verifyPaymentUpTo 1 acceptAll3 (some "ord_1") (some "pay_1") (some "sig") none
    "MONTHLY" none "INV-202501-AAAAAAAA" 1000 db0

/-- C2 counterexample: stopping the fixture run after the first write leaves
the Payment CAPTURED while the Subscription is still TRIAL (not ACTIVE) and
the state differs from the initial one — the partial write the claim says
can never be observed. -/
theorem verify_crash_partial_state_cex :
    paymentStatusById vpU1.payments 1 = some .CAPTURED
    ∧ vpU1.subscription.status = .TRIAL
    ∧ vpU1.subscription.status ≠ .ACTIVE
    ∧ vpU1 ≠ db0 := by
  refine ⟨by decide, by decide, by decide, by decide⟩

/-- C2 as amended: the three mutations of a successful verify-payment are
issued sequentially with no enclosing transaction.  A crash before the first
write changes nothing, but a crash after the payment update persists the
CAPTURED payment with the subscription and invoices untouched; only a run
that completes all three writes coincides with the full handler's state. -/
theorem verifyPayment_sequential_writes (V : String → String → String → Bool)
    (o pi si : Option String) (pid : Option Nat) (bc : String) (m : Option String)
    (iv : String) (t : Int) (db : DB) (p : Payment)
    (htr : jsTruthy o ∧ jsTruthy pi ∧ jsTruthy si)
    (hv : V (o.getD "") (pi.getD "") (si.getD "") = true)
    (hfind : findPaymentByOrderId db.payments (o.getD "") = some p) :
    verifyPaymentUpTo 0 V o pi si pid bc m iv t db = db
    ∧ (findPaymentByOrderId (verifyPaymentUpTo 1 V o pi si pid bc m iv t db).payments
           (o.getD "")
         = some { p with
             status := .CAPTURED, razorpayPaymentId := some (pi.getD ""),
             razorpaySignature := some (si.getD ""), method := m, paidAt := some t }
       ∧ (verifyPaymentUpTo 1 V o pi si pid bc m iv t db).subscription = db.subscription
       ∧ (verifyPaymentUpTo 1 V o pi si pid bc m iv t db).invoices = db.invoices)
    ∧ verifyPaymentUpTo 3 V o pi si pid bc m iv t db
        = (verifyPayment V o pi si pid bc m iv t db).1 := by
  obtain ⟨h1, h2, h3⟩ := htr
  refine ⟨?_, ⟨?_, ?_, ?_⟩, ?_⟩
  · unfold verifyPaymentUpTo
    rw [if_neg (not_not_intro ⟨h1, h2, h3⟩), if_neg (not_not_intro hv)]
    simp [hfind]
  · unfold verifyPaymentUpTo
    rw [if_neg (not_not_intro ⟨h1, h2, h3⟩), if_neg (not_not_intro hv)]
    simp only [hfind, vpWrite1]
    rw [findPaymentByOrderId_update]
    · rw [hfind]
      simp
    · intro q
      rfl
  · unfold verifyPaymentUpTo
    rw [if_neg (not_not_intro ⟨h1, h2, h3⟩), if_neg (not_not_intro hv)]
    simp [hfind, vpWrite1]
  · unfold verifyPaymentUpTo
    rw [if_neg (not_not_intro ⟨h1, h2, h3⟩), if_neg (not_not_intro hv)]
    simp [hfind, vpWrite1]
  · unfold verifyPaymentUpTo verifyPayment
    rw [if_neg (not_not_intro ⟨h1, h2, h3⟩), if_neg (not_not_intro hv),
        if_neg (not_not_intro ⟨h1, h2, h3⟩), if_neg (not_not_intro hv)]
    simp [hfind]

/-- Witness: the crash-after-first-write state of the fixture run. -/
theorem verifyPayment_sequential_writes_witness :
    findPaymentByOrderId vpU1.payments "ord_1"
      = some { payCreated with
          status := .CAPTURED, razorpayPaymentId := some "pay_1",
          razorpaySignature := some "sig", method := none, paidAt := some 1000 }
    ∧ vpU1.subscription = db0.subscription
    ∧ vpU1.invoices = db0.invoices :=
  (verifyPayment_sequential_writes acceptAll3 (some "ord_1") (some "pay_1") (some "sig")
     none "MONTHLY" none "INV-202501-AAAAAAAA" 1000 db0 payCreated (by decide) (by decide)
     (by decide)).2.1

-- ==================== C9 ====================

/-- C9: every invoice created by a successful verify-payment has
`tax = round(subtotal * 0.18, 2)` and `total = round(subtotal * 1.18, 2)`,
which equals `subtotal + tax` whenever the subtotal is a whole number of
hundredths — and create-order always stores amounts of that shape; at the
monthly Professional price 1499 this gives tax 269.82 and total 1768.82. -/
theorem invoice_tax_total_rules :
    (∀ V o pi si pid bc m iv (t : Int) db db',
       verifyPayment V o pi si pid bc m iv t db = (db', 200) →
       ∃ inv : Invoice, db'.invoices = db.invoices ++ [inv]
         ∧ inv.tax = invoiceTax inv.subtotal
         ∧ inv.total = invoiceTotal inv.subtotal
         ∧ (∀ k : ℤ, inv.subtotal = (k : ℚ) / 100 → inv.total = inv.subtotal + inv.tax))
    ∧ (∀ plan bc, ∃ k : ℤ, storedPaymentAmount plan bc = (k : ℚ) / 100)
    ∧ invoiceTax 1499 = 269.82
    ∧ invoiceTotal 1499 = 1768.82
    ∧ (1768.82 : ℚ) = 1499 + 269.82 := by
  have htax : invoiceTax 1499 = 269.82 := by
    unfold invoiceTax
    rw [jsRound_eq ((1499 : ℚ) * (18/100) * 100) 26982 (by norm_num) (by norm_num)]
    norm_num
  have htot : invoiceTotal 1499 = 1768.82 := by
    unfold invoiceTotal
    rw [jsRound_eq ((1499 : ℚ) * (118/100) * 100) 176882 (by norm_num) (by norm_num)]
    norm_num
  refine ⟨?_, ?_, htax, htot, by norm_num⟩
  · intro V o pi si pid bc m iv t db db' hsucc
    unfold verifyPayment at hsucc
    by_cases hg1 : (jsTruthy o ∧ jsTruthy pi ∧ jsTruthy si)
    · by_cases hg2 : (V (o.getD "") (pi.getD "") (si.getD "") : Prop)
      · rw [if_neg (not_not_intro hg1), if_neg (not_not_intro hg2)] at hsucc
        rcases h : findPaymentByOrderId db.payments (o.getD "") with _ | p
        · rw [h] at hsucc
          simp at hsucc
        · rw [h] at hsucc
          simp only [Prod.mk.injEq] at hsucc
          obtain ⟨hdb, -⟩ := hsucc
          subst hdb
          refine ⟨_, rfl, rfl, rfl, ?_⟩
          intro k hk
          have hk' : p.amount = (k : ℚ) / 100 := hk
          show invoiceTotal p.amount = p.amount + invoiceTax p.amount
          rw [hk']
          exact invoiceTotal_eq_add_tax k
      · rw [if_neg (not_not_intro hg1), if_pos hg2] at hsucc
        simp at hsucc
    · rw [if_pos hg1] at hsucc
      simp at hsucc
  · intro plan bc
    exact ⟨orderAmountPaise plan bc, rfl⟩

/-- Witness: the invoice created by the fixture verify-payment run. -/
theorem invoice_tax_total_rules_witness :
    ∃ inv : Invoice, vp1.1.invoices = db0.invoices ++ [inv]
      ∧ inv.tax = invoiceTax inv.subtotal
      ∧ inv.total = invoiceTotal inv.subtotal
      ∧ (∀ k : ℤ, inv.subtotal = (k : ℚ) / 100 → inv.total = inv.subtotal + inv.tax) :=
  invoice_tax_total_rules.1 acceptAll3 (some "ord_1") (some "pay_1") (some "sig") none
    "MONTHLY" none "INV-202501-AAAAAAAA" 1000 db0 vp1.1 rfl

end A10
